import Mathlib

/-!
Verification of the error-code bridge of `btrfsutil-rs` (`src/error/lib.rs`).

The file embeds, as executable Lean definitions:
* the 27 `bindings::btrfs_util_error_*` constants consumed by the Rust enum
  (the bindings module is generated at build time from the native header and
  is not part of `src/`; it is modelled from the spec),
* the `LibError` enum with its discriminants and `#[error(...)]` display
  strings,
* the `TryFrom<LibErrorCode> for LibError` conversion (`try_from`),
* `LibError::strerror`, parameterised over the behaviour of the foreign
  `btrfs_util_strerror` call, together with a strict UTF-8 validator
  mirroring the validation performed by `CStr::to_str` / `str::from_utf8`.
-/

namespace BtrfsUtil

/-- Modelled from the spec: the generated `bindings` module (absent from
`src/`) exposes the native header's `enum btrfs_util_error` as integer
constants.  Per the spec, each variant is "permanently associated with one
non-negative integer code (0 = success, 1–26 = specific failure kinds)",
"mirroring a foreign header's constants"; a C enum without explicit
initialisers assigns sequential values in declaration order, the order in
which both the Rust enum and the native header list the variants. -/
def btrfs_util_error_BTRFS_UTIL_OK : Nat := 0

def btrfs_util_error_BTRFS_UTIL_ERROR_STOP_ITERATION : Nat := 1

def btrfs_util_error_BTRFS_UTIL_ERROR_NO_MEMORY : Nat := 2

def btrfs_util_error_BTRFS_UTIL_ERROR_INVALID_ARGUMENT : Nat := 3

def btrfs_util_error_BTRFS_UTIL_ERROR_NOT_BTRFS : Nat := 4

def btrfs_util_error_BTRFS_UTIL_ERROR_NOT_SUBVOLUME : Nat := 5

def btrfs_util_error_BTRFS_UTIL_ERROR_SUBVOLUME_NOT_FOUND : Nat := 6

def btrfs_util_error_BTRFS_UTIL_ERROR_OPEN_FAILED : Nat := 7

def btrfs_util_error_BTRFS_UTIL_ERROR_RMDIR_FAILED : Nat := 8

def btrfs_util_error_BTRFS_UTIL_ERROR_UNLINK_FAILED : Nat := 9

def btrfs_util_error_BTRFS_UTIL_ERROR_STAT_FAILED : Nat := 10

def btrfs_util_error_BTRFS_UTIL_ERROR_STATFS_FAILED : Nat := 11

def btrfs_util_error_BTRFS_UTIL_ERROR_SEARCH_FAILED : Nat := 12

def btrfs_util_error_BTRFS_UTIL_ERROR_INO_LOOKUP_FAILED : Nat := 13

def btrfs_util_error_BTRFS_UTIL_ERROR_SUBVOL_GETFLAGS_FAILED : Nat := 14

def btrfs_util_error_BTRFS_UTIL_ERROR_SUBVOL_SETFLAGS_FAILED : Nat := 15

def btrfs_util_error_BTRFS_UTIL_ERROR_SUBVOL_CREATE_FAILED : Nat := 16

def btrfs_util_error_BTRFS_UTIL_ERROR_SNAP_CREATE_FAILED : Nat := 17

def btrfs_util_error_BTRFS_UTIL_ERROR_SNAP_DESTROY_FAILED : Nat := 18

def btrfs_util_error_BTRFS_UTIL_ERROR_DEFAULT_SUBVOL_FAILED : Nat := 19

def btrfs_util_error_BTRFS_UTIL_ERROR_SYNC_FAILED : Nat := 20

def btrfs_util_error_BTRFS_UTIL_ERROR_START_SYNC_FAILED : Nat := 21

def btrfs_util_error_BTRFS_UTIL_ERROR_WAIT_SYNC_FAILED : Nat := 22

def btrfs_util_error_BTRFS_UTIL_ERROR_GET_SUBVOL_INFO_FAILED : Nat := 23

def btrfs_util_error_BTRFS_UTIL_ERROR_GET_SUBVOL_ROOTREF_FAILED : Nat := 24

def btrfs_util_error_BTRFS_UTIL_ERROR_INO_LOOKUP_USER_FAILED : Nat := 25

def btrfs_util_error_BTRFS_UTIL_ERROR_FS_INFO_FAILED : Nat := 26

/-- `pub type LibErrorCode = u32;` — the raw error code type.  `u32` values
are the naturals below `2 ^ 32`; theorems about the full input range carry
that bound as a hypothesis. -/
abbrev LibErrorCode : Type := Nat

/-- Upper bound excluded for `u32` values. -/
def u32Bound : Nat := 2 ^ 32

/-- `enum LibError` from `src/error/lib.rs`: the 27 variants, in the
declaration order of the source. -/
inductive LibError where
  | Ok
  | StopIteration
  | NoMemory
  | InvalidArgument
  | NotBtrfs
  | NotSubvolume
  | SubvolumeNotFound
  | OpenFailed
  | RmdirFailed
  | UnlinkFailed
  | StatFailed
  | StatfsFailed
  | SearchFailed
  | InoLookupFailed
  | SubvolGetflagsFailed
  | SubvolSetflagsFailed
  | SubvolCreateFailed
  | SnapCreateFailed
  | SnapDestroyFailed
  | DefaultSubvolFailed
  | SyncFailed
  | StartSyncFailed
  | WaitSyncFailed
  | GetSubvolInfoFailed
  | GetSubvolRootrefFailed
  | InoLookupUserFailed
  | FsInfoFailed
  deriving DecidableEq, Repr, Fintype

/-- The discriminant of each variant, as declared in the source
(`Variant = bindings::btrfs_util_error_... as isize`); the cast
`self.clone() as LibErrorCode` in `strerror` reads exactly this value. -/
def LibError.code : LibError → Nat
  | .Ok => btrfs_util_error_BTRFS_UTIL_OK
  | .StopIteration => btrfs_util_error_BTRFS_UTIL_ERROR_STOP_ITERATION
  | .NoMemory => btrfs_util_error_BTRFS_UTIL_ERROR_NO_MEMORY
  | .InvalidArgument => btrfs_util_error_BTRFS_UTIL_ERROR_INVALID_ARGUMENT
  | .NotBtrfs => btrfs_util_error_BTRFS_UTIL_ERROR_NOT_BTRFS
  | .NotSubvolume => btrfs_util_error_BTRFS_UTIL_ERROR_NOT_SUBVOLUME
  | .SubvolumeNotFound => btrfs_util_error_BTRFS_UTIL_ERROR_SUBVOLUME_NOT_FOUND
  | .OpenFailed => btrfs_util_error_BTRFS_UTIL_ERROR_OPEN_FAILED
  | .RmdirFailed => btrfs_util_error_BTRFS_UTIL_ERROR_RMDIR_FAILED
  | .UnlinkFailed => btrfs_util_error_BTRFS_UTIL_ERROR_UNLINK_FAILED
  | .StatFailed => btrfs_util_error_BTRFS_UTIL_ERROR_STAT_FAILED
  | .StatfsFailed => btrfs_util_error_BTRFS_UTIL_ERROR_STATFS_FAILED
  | .SearchFailed => btrfs_util_error_BTRFS_UTIL_ERROR_SEARCH_FAILED
  | .InoLookupFailed => btrfs_util_error_BTRFS_UTIL_ERROR_INO_LOOKUP_FAILED
  | .SubvolGetflagsFailed => btrfs_util_error_BTRFS_UTIL_ERROR_SUBVOL_GETFLAGS_FAILED
  | .SubvolSetflagsFailed => btrfs_util_error_BTRFS_UTIL_ERROR_SUBVOL_SETFLAGS_FAILED
  | .SubvolCreateFailed => btrfs_util_error_BTRFS_UTIL_ERROR_SUBVOL_CREATE_FAILED
  | .SnapCreateFailed => btrfs_util_error_BTRFS_UTIL_ERROR_SNAP_CREATE_FAILED
  | .SnapDestroyFailed => btrfs_util_error_BTRFS_UTIL_ERROR_SNAP_DESTROY_FAILED
  | .DefaultSubvolFailed => btrfs_util_error_BTRFS_UTIL_ERROR_DEFAULT_SUBVOL_FAILED
  | .SyncFailed => btrfs_util_error_BTRFS_UTIL_ERROR_SYNC_FAILED
  | .StartSyncFailed => btrfs_util_error_BTRFS_UTIL_ERROR_START_SYNC_FAILED
  | .WaitSyncFailed => btrfs_util_error_BTRFS_UTIL_ERROR_WAIT_SYNC_FAILED
  | .GetSubvolInfoFailed => btrfs_util_error_BTRFS_UTIL_ERROR_GET_SUBVOL_INFO_FAILED
  | .GetSubvolRootrefFailed => btrfs_util_error_BTRFS_UTIL_ERROR_GET_SUBVOL_ROOTREF_FAILED
  | .InoLookupUserFailed => btrfs_util_error_BTRFS_UTIL_ERROR_INO_LOOKUP_USER_FAILED
  | .FsInfoFailed => btrfs_util_error_BTRFS_UTIL_ERROR_FS_INFO_FAILED

/-- The static `#[error("...")]` display string of each variant, as written
in the source; `thiserror` derives `Display` to print exactly this text,
with no call into the native library. -/
def LibError.display : LibError → String
  | .Ok => "Success"
  | .StopIteration => "Stop iteration"
  | .NoMemory => "Cannot allocate memory"
  | .InvalidArgument => "Invalid argument"
  | .NotBtrfs => "Not a Btrfs filesystem"
  | .NotSubvolume => "Not a Btrfs subvolume"
  | .SubvolumeNotFound => "Subvolume not found"
  | .OpenFailed => "Could not open"
  | .RmdirFailed => "Could not rmdir"
  | .UnlinkFailed => "Could not unlink"
  | .StatFailed => "Could not stat"
  | .StatfsFailed => "Could not statfs"
  | .SearchFailed => "Could not search B-tree"
  | .InoLookupFailed => "Could not lookup inode"
  | .SubvolGetflagsFailed => "Could not get subvolume flags"
  | .SubvolSetflagsFailed => "Could not set subvolume flags"
  | .SubvolCreateFailed => "Could not create subvolume"
  | .SnapCreateFailed => "Could not create snapshot"
  | .SnapDestroyFailed => "Could not destroy subvolume/snapshot"
  | .DefaultSubvolFailed => "Could not set default subvolume"
  | .SyncFailed => "Could not sync filesystem"
  | .StartSyncFailed => "Could not start filesystem sync"
  | .WaitSyncFailed => "Could not wait for filesystem sync"
  | .GetSubvolInfoFailed => "Could not get subvolume information with BTRFS_IOC_GET_SUBVOL_INFO"
  | .GetSubvolRootrefFailed => "Could not get rootref information with BTRFS_IOC_GET_SUBVOL_ROOTREF"
  | .InoLookupUserFailed => "Could not resolve subvolume path with BTRFS_IOC_INO_LOOKUP_USER"
  | .FsInfoFailed => "Could not get filesystem information"

/-- All 27 variants, in declaration order. -/
def LibError.variants : List LibError :=
  [.Ok, .StopIteration, .NoMemory, .InvalidArgument, .NotBtrfs, .NotSubvolume,
   .SubvolumeNotFound, .OpenFailed, .RmdirFailed, .UnlinkFailed, .StatFailed,
   .StatfsFailed, .SearchFailed, .InoLookupFailed, .SubvolGetflagsFailed,
   .SubvolSetflagsFailed, .SubvolCreateFailed, .SnapCreateFailed,
   .SnapDestroyFailed, .DefaultSubvolFailed, .SyncFailed, .StartSyncFailed,
   .WaitSyncFailed, .GetSubvolInfoFailed, .GetSubvolRootrefFailed,
   .InoLookupUserFailed, .FsInfoFailed]

/-- Modelled from the spec: `GlueError` (declared in the crate's error
module, outside `src/`) — the failure taxonomy of the bridge:
`UnknownErrno` for a numeric code outside the recognised set,
`NullPointerReceived` for a null foreign return, `Utf8Error` when the
foreign bytes are not valid text (the source's `Utf8Error` wraps
`std::str::Utf8Error`; here it records the offending bytes). -/
inductive GlueError where
  | UnknownErrno (errno : Nat)
  | NullPointerReceived
  | Utf8Error (bytes : List Nat)
  deriving DecidableEq, Repr

/-- Modelled from the spec: `BtrfsUtilError` (declared outside `src/`) as
far as this module uses it — the `glue_error!` macro reports a `GlueError`
to the caller wrapped in the crate-level error type, per the spec's
"all abnormal conditions are reported through the `Failure` result". -/
inductive BtrfsUtilError where
  | Glue (e : GlueError)
  deriving DecidableEq, Repr

/-- `type Result<T> = std::result::Result<T, BtrfsUtilError>` of the crate. -/
abbrev CResult (α : Type) : Type := Except BtrfsUtilError α

/-- `impl TryFrom<LibErrorCode> for LibError`: the guard
`glue_error!(errno > 26, GlueError::UnknownErrno(errno))` followed by the
match on the binding constants, whose `_` arm also reports
`UnknownErrno`. -/
def LibError.try_from (errno : Nat) : CResult LibError :=
  if errno > 26 then .error (.Glue (.UnknownErrno errno))
  else if errno = btrfs_util_error_BTRFS_UTIL_OK then .ok .Ok
  else if errno = btrfs_util_error_BTRFS_UTIL_ERROR_STOP_ITERATION then .ok .StopIteration
  else if errno = btrfs_util_error_BTRFS_UTIL_ERROR_NO_MEMORY then .ok .NoMemory
  else if errno = btrfs_util_error_BTRFS_UTIL_ERROR_INVALID_ARGUMENT then .ok .InvalidArgument
  else if errno = btrfs_util_error_BTRFS_UTIL_ERROR_NOT_BTRFS then .ok .NotBtrfs
  else if errno = btrfs_util_error_BTRFS_UTIL_ERROR_NOT_SUBVOLUME then .ok .NotSubvolume
  else if errno = btrfs_util_error_BTRFS_UTIL_ERROR_SUBVOLUME_NOT_FOUND then
    .ok .SubvolumeNotFound
  else if errno = btrfs_util_error_BTRFS_UTIL_ERROR_OPEN_FAILED then .ok .OpenFailed
  else if errno = btrfs_util_error_BTRFS_UTIL_ERROR_RMDIR_FAILED then .ok .RmdirFailed
  else if errno = btrfs_util_error_BTRFS_UTIL_ERROR_UNLINK_FAILED then .ok .UnlinkFailed
  else if errno = btrfs_util_error_BTRFS_UTIL_ERROR_STAT_FAILED then .ok .StatFailed
  else if errno = btrfs_util_error_BTRFS_UTIL_ERROR_STATFS_FAILED then .ok .StatfsFailed
  else if errno = btrfs_util_error_BTRFS_UTIL_ERROR_SEARCH_FAILED then .ok .SearchFailed
  else if errno = btrfs_util_error_BTRFS_UTIL_ERROR_INO_LOOKUP_FAILED then .ok .InoLookupFailed
  else if errno = btrfs_util_error_BTRFS_UTIL_ERROR_SUBVOL_GETFLAGS_FAILED then
    .ok .SubvolGetflagsFailed
  else if errno = btrfs_util_error_BTRFS_UTIL_ERROR_SUBVOL_SETFLAGS_FAILED then
    .ok .SubvolSetflagsFailed
  else if errno = btrfs_util_error_BTRFS_UTIL_ERROR_SUBVOL_CREATE_FAILED then
    .ok .SubvolCreateFailed
  else if errno = btrfs_util_error_BTRFS_UTIL_ERROR_SNAP_CREATE_FAILED then .ok .SnapCreateFailed
  else if errno = btrfs_util_error_BTRFS_UTIL_ERROR_SNAP_DESTROY_FAILED then .ok .SnapDestroyFailed
  else if errno = btrfs_util_error_BTRFS_UTIL_ERROR_DEFAULT_SUBVOL_FAILED then
    .ok .DefaultSubvolFailed
  else if errno = btrfs_util_error_BTRFS_UTIL_ERROR_SYNC_FAILED then .ok .SyncFailed
  else if errno = btrfs_util_error_BTRFS_UTIL_ERROR_START_SYNC_FAILED then .ok .StartSyncFailed
  else if errno = btrfs_util_error_BTRFS_UTIL_ERROR_WAIT_SYNC_FAILED then .ok .WaitSyncFailed
  else if errno = btrfs_util_error_BTRFS_UTIL_ERROR_GET_SUBVOL_INFO_FAILED then
    .ok .GetSubvolInfoFailed
  else if errno = btrfs_util_error_BTRFS_UTIL_ERROR_GET_SUBVOL_ROOTREF_FAILED then
    .ok .GetSubvolRootrefFailed
  else if errno = btrfs_util_error_BTRFS_UTIL_ERROR_INO_LOOKUP_USER_FAILED then
    .ok .InoLookupUserFailed
  else if errno = btrfs_util_error_BTRFS_UTIL_ERROR_FS_INFO_FAILED then .ok .FsInfoFailed
  else .error (.Glue (.UnknownErrno errno))

/-- A UTF-8 continuation byte (`0x80..=0xBF`). -/
def isContByte (b : Nat) : Bool := 0x80 ≤ b && b ≤ 0xBF

/-- Strict UTF-8 validity of a byte sequence, mirroring the validation
performed by `CStr::to_str` (`str::from_utf8`): ASCII, and 2-, 3- and
4-byte sequences with overlong encodings, surrogates and codepoints above
`0x10FFFF` rejected. -/
def isValidUtf8 : List Nat → Bool
  | [] => true
  | b0 :: rest =>
    if b0 ≤ 0x7F then isValidUtf8 rest
    else if 0xC2 ≤ b0 && b0 ≤ 0xDF then
      match rest with
      | b1 :: rest2 => isContByte b1 && isValidUtf8 rest2
      | [] => false
    else if b0 = 0xE0 then
      match rest with
      | b1 :: b2 :: rest2 => (0xA0 ≤ b1 && b1 ≤ 0xBF) && isContByte b2 && isValidUtf8 rest2
      | _ => false
    else if (0xE1 ≤ b0 && b0 ≤ 0xEC) || b0 = 0xEE || b0 = 0xEF then
      match rest with
      | b1 :: b2 :: rest2 => isContByte b1 && isContByte b2 && isValidUtf8 rest2
      | _ => false
    else if b0 = 0xED then
      match rest with
      | b1 :: b2 :: rest2 => (0x80 ≤ b1 && b1 ≤ 0x9F) && isContByte b2 && isValidUtf8 rest2
      | _ => false
    else if b0 = 0xF0 then
      match rest with
      | b1 :: b2 :: b3 :: rest2 =>
        (0x90 ≤ b1 && b1 ≤ 0xBF) && isContByte b2 && isContByte b3 && isValidUtf8 rest2
      | _ => false
    else if 0xF1 ≤ b0 && b0 ≤ 0xF3 then
      match rest with
      | b1 :: b2 :: b3 :: rest2 =>
        isContByte b1 && isContByte b2 && isContByte b3 && isValidUtf8 rest2
      | _ => false
    else if b0 = 0xF4 then
      match rest with
      | b1 :: b2 :: b3 :: rest2 =>
        (0x80 ≤ b1 && b1 ≤ 0x8F) && isContByte b2 && isContByte b3 && isValidUtf8 rest2
      | _ => false
    else false

/-- `CStr::to_str`: a Rust `&str` is the same byte sequence, validated as
UTF-8; invalid bytes yield the `Err` branch carrying a `Utf8Error`. -/
def cstrToStr (bytes : List Nat) : Option (List Nat) :=
  if isValidUtf8 bytes then some bytes else none

/-- The foreign boundary of `strerror`: the behaviour of the native
`btrfs_util_strerror` call, as observed by the glue code — for a given
code, either a null pointer (`none`) or the bytes of the returned
null-terminated C string (`some bytes`, terminator excluded). -/
def NativeStrerror : Type := Nat → Option (List Nat)

/-- `LibError::strerror`, parameterised by the foreign call's behaviour:
casts `self` to its `LibErrorCode`, calls the native lookup, reports
`GlueError::NullPointerReceived` on a null pointer, otherwise converts the
C string via `CStr::to_str`, reporting `GlueError::Utf8Error` when the
bytes are not valid UTF-8. -/
def LibError.strerror (native : NativeStrerror) (self : LibError) : CResult (List Nat) :=
  match native self.code with
  | none => .error (.Glue .NullPointerReceived)
  | some bytes =>
    match cstrToStr bytes with
    | some val => .ok val
    | none => .error (.Glue (.Utf8Error bytes))

/-- The bytes of the ASCII string `Success`. -/
def successBytes : List Nat := [83, 117, 99, 99, 101, 115, 115]

/-! ## Helper lemmas -/

instance exceptDecEq {ε α : Type} [DecidableEq ε] [DecidableEq α] :
    DecidableEq (Except ε α) := fun x y =>
  match x, y with
  | .ok a, .ok b => decidable_of_iff (a = b) (by simp)
  | .error a, .error b => decidable_of_iff (a = b) (by simp)
  | .ok _, .error _ => isFalse (fun h => Except.noConfusion h)
  | .error _, .ok _ => isFalse (fun h => Except.noConfusion h)

theorem try_from_ok_of_lt27 :
    ∀ c : Nat, c < 27 → ∃ v : LibError, LibError.try_from c = .ok v ∧ v.code = c := by
  decide

theorem try_from_err_of_gt26 (c : Nat) (h : 26 < c) :
    LibError.try_from c = .error (.Glue (.UnknownErrno c)) := by
  unfold LibError.try_from
  rw [if_pos h]

theorem strerror_cases (native : NativeStrerror) (v : LibError) :
    (∃ s, LibError.strerror native v = .ok s) ∨
      LibError.strerror native v = .error (.Glue .NullPointerReceived) ∨
      (∃ bytes, LibError.strerror native v = .error (.Glue (.Utf8Error bytes))) := by
  unfold LibError.strerror
  cases h : native v.code with
  | none => exact Or.inr (Or.inl rfl)
  | some bytes =>
    unfold cstrToStr
    by_cases hv : isValidUtf8 bytes
    · exact Or.inl ⟨bytes, by simp [hv]⟩
    · exact Or.inr (Or.inr ⟨bytes, by simp [hv]⟩)

/-! ## Claim theorems -/

/-- Claim C1: for every integer `c` in `[0, 26]`, `try_from c` succeeds and
returns the unique `LibError` variant whose declared constant equals `c`;
the code-to-variant mapping is injective and surjective onto `[0, 26]`,
i.e. a bijection between the 27 variants and the integers 0 through 26. -/
theorem claim1_code_variant_bijection :
    (∀ c : Nat, c ≤ 26 → ∃ v : LibError, LibError.try_from c = .ok v ∧ v.code = c) ∧
    (∀ v w : LibError, v.code = w.code → v = w) ∧
    (∀ v : LibError, v.code ≤ 26) := by
  refine ⟨fun c hc => try_from_ok_of_lt27 c (by omega), ?_, ?_⟩ <;> decide

/-- Witness for C1 at `c = 4`. -/
theorem claim1_code_variant_bijection_witness :
    ∃ v : LibError, LibError.try_from 4 = .ok v ∧ v.code = 4 :=
  claim1_code_variant_bijection.1 4 (by decide)

/-- Claim C2: for every `u32` code `c` outside `[0, 26]`, `try_from c`
fails with `GlueError::UnknownErrno(c)`, carrying the same input value. -/
theorem claim2_unknown_code (c : Nat) (_hlt : c < u32Bound) (h : 26 < c) :
    LibError.try_from c = .error (.Glue (.UnknownErrno c)) :=
  try_from_err_of_gt26 c h

/-- Witness for C2 at `c = 27`, `c = 1000` and `c = 4294967295` (the `u32`
bit pattern of `-1`). -/
theorem claim2_unknown_code_witness :
    LibError.try_from 27 = .error (.Glue (.UnknownErrno 27)) ∧
    LibError.try_from 1000 = .error (.Glue (.UnknownErrno 1000)) ∧
    LibError.try_from 4294967295 = .error (.Glue (.UnknownErrno 4294967295)) :=
  ⟨claim2_unknown_code 27 (by norm_num [u32Bound]) (by norm_num),
   claim2_unknown_code 1000 (by norm_num [u32Bound]) (by norm_num),
   claim2_unknown_code 4294967295 (by norm_num [u32Bound]) (by norm_num)⟩

/-- Claim C3: round-trip — for every variant `v`, converting `v` to its
integer code (the cast `v as LibErrorCode` used by `strerror`) and feeding
it back through `try_from` yields `Ok v`. -/
theorem claim3_roundtrip : ∀ v : LibError, LibError.try_from v.code = .ok v := by
  decide

/-- Counterexample to C4 as stated: `try_from 4` does not return the
`NotSubvolume` variant; it returns `NotBtrfs`, whose constant is 4
(`NotSubvolume`'s constant is 5). -/
theorem claim4_counterexample :
    LibError.try_from 4 ≠ .ok LibError.NotSubvolume ∧
    LibError.try_from 4 = .ok LibError.NotBtrfs := by
  decide

/-- Claim C4 (amended): `try_from 0` returns the success variant, whose
static description is `"Success"` and whose `strerror` returns that same
text whenever the native call supplies it; `try_from 4` returns `NotBtrfs`
and `try_from 5` returns `NotSubvolume`; `try_from 99` fails with
`UnknownErrno 99`. -/
theorem claim4_concrete_scenario :
    LibError.try_from 0 = .ok LibError.Ok ∧
    LibError.Ok.display = "Success" ∧
    LibError.strerror (fun c => if c = 0 then some successBytes else none) LibError.Ok
      = .ok successBytes ∧
    LibError.try_from 4 = .ok LibError.NotBtrfs ∧
    LibError.try_from 5 = .ok LibError.NotSubvolume ∧
    LibError.try_from 99 = .error (.Glue (.UnknownErrno 99)) := by
  refine ⟨by decide, rfl, by decide, by decide, by decide, by decide⟩

/-- Claim C5: `strerror` calls the native lookup with the variant's integer
code and never dereferences a null return — it fails with
`NullPointerReceived` when the foreign call returns null, fails with
`Utf8Error` when the returned bytes are not valid UTF-8, and every
successful return is exactly the validly-encoded foreign bytes (never
invalid text). -/
theorem claim5_strerror_error_handling (native : NativeStrerror) (v : LibError) :
    (native v.code = none →
      LibError.strerror native v = .error (.Glue .NullPointerReceived)) ∧
    (∀ bytes, native v.code = some bytes → isValidUtf8 bytes = false →
      LibError.strerror native v = .error (.Glue (.Utf8Error bytes))) ∧
    (∀ s, LibError.strerror native v = .ok s →
      native v.code = some s ∧ isValidUtf8 s = true) := by
  refine ⟨?_, ?_, ?_⟩
  · intro h
    simp [LibError.strerror, h]
  · intro bytes h hbad
    simp [LibError.strerror, h, cstrToStr, hbad]
  · intro s hs
    cases h : native v.code with
    | none => simp [LibError.strerror, h] at hs
    | some bytes =>
      by_cases hv : isValidUtf8 bytes
      · simp [LibError.strerror, h, cstrToStr, hv] at hs
        subst hs
        exact ⟨rfl, hv⟩
      · simp [LibError.strerror, h, cstrToStr, hv] at hs

/-- Witness for C5: a null foreign return and an invalid-UTF-8 foreign
return, at the success variant. -/
theorem claim5_strerror_error_handling_witness :
    LibError.strerror (fun _ => none) LibError.Ok
      = .error (.Glue .NullPointerReceived) ∧
    LibError.strerror (fun _ => some [255]) LibError.Ok
      = .error (.Glue (.Utf8Error [255])) :=
  ⟨(claim5_strerror_error_handling (fun _ => none) LibError.Ok).1 rfl,
   (claim5_strerror_error_handling (fun _ => some [255]) LibError.Ok).2.1 [255] rfl (by decide)⟩

/-- Claim C6: `try_from` and `strerror` are total — every input, and every
possible behaviour of the foreign call, produces either a success or one of
the typed failures (`UnknownErrno` with the offending code,
`NullPointerReceived`, `Utf8Error`); no outcome is swallowed or replaced by
a default value. -/
theorem claim6_total_typed_results :
    (∀ c : Nat, (∃ v, LibError.try_from c = .ok v) ∨
      LibError.try_from c = .error (.Glue (.UnknownErrno c))) ∧
    (∀ (native : NativeStrerror) (v : LibError),
      (∃ s, LibError.strerror native v = .ok s) ∨
      LibError.strerror native v = .error (.Glue .NullPointerReceived) ∨
      (∃ bytes, LibError.strerror native v = .error (.Glue (.Utf8Error bytes)))) := by
  constructor
  · intro c
    by_cases hc : c ≤ 26
    · obtain ⟨v, hv, -⟩ := try_from_ok_of_lt27 c (by omega)
      exact Or.inl ⟨v, hv⟩
    · exact Or.inr (try_from_err_of_gt26 c (by omega))
  · exact strerror_cases

/-- Claim C7: every variant carries a static, human-authored, one-line
description — its `#[error(...)]` display string — which is non-empty,
contains no line break, and is computed without any foreign call. -/
theorem claim7_static_descriptions :
    ∀ v : LibError, 0 < (LibError.display v).length ∧
      ((LibError.display v).data.all fun ch => ch ≠ Char.ofNat 10) = true := by
  decide

/-- Claim C9: the input type of `try_from` is the unsigned 32-bit
`LibErrorCode`, so negative codes are unrepresentable at the interface
(the domain is the naturals below `u32Bound`); over that domain the
conversion succeeds exactly when `c ≤ 26` and fails exactly when `26 < c`
— the range guard alone decides success and the per-code match covers
every value 0 through 26 with no gap. -/
theorem claim9_raises_iff (c : Nat) (_hlt : c < u32Bound) :
    ((∃ v, LibError.try_from c = .ok v) ↔ c ≤ 26) ∧
    ((∃ e, LibError.try_from c = .error e) ↔ 26 < c) := by
  by_cases hc : c ≤ 26
  · obtain ⟨v, hv, -⟩ := try_from_ok_of_lt27 c (by omega)
    refine ⟨⟨fun _ => hc, fun _ => ⟨v, hv⟩⟩, ?_, fun h => absurd h (by omega)⟩
    rintro ⟨e, he⟩
    rw [hv] at he
    exact absurd he (fun hh => Except.noConfusion hh)
  · have he := try_from_err_of_gt26 c (by omega)
    refine ⟨⟨?_, fun h => absurd h (by omega)⟩, fun _ => by omega, fun _ => ⟨_, he⟩⟩
    rintro ⟨v, hvv⟩
    rw [he] at hvv
    exact absurd hvv (fun hh => Except.noConfusion hh)

/-- Witness for C9 at the boundary codes 26 and 27. -/
theorem claim9_raises_iff_witness :
    (∃ v, LibError.try_from 26 = .ok v) ∧
    (∃ e, LibError.try_from 27 = .error e) :=
  ⟨(claim9_raises_iff 26 (by norm_num [u32Bound])).1.mpr (by norm_num),
   (claim9_raises_iff 27 (by norm_num [u32Bound])).2.mpr (by norm_num)⟩

/-- Claim C10: the 27 static `#[error(...)]` display strings are pairwise
distinct and all non-empty, so the offline descriptions identify each
variant uniquely. -/
theorem claim10_display_distinct_nonempty :
    (LibError.variants.map LibError.display).Nodup ∧
    ∀ v : LibError, LibError.display v ≠ "" := by
  decide

end BtrfsUtil
